import Mathlib

/-!
Verification of the lead-intake validation-and-persistence pipeline of
`app.py` (NYC Restaurant & Bar Navigator).

The development shallowly embeds the relevant Python functions:

* `valid_email` (app.py lines 125-126): the compiled pattern
  `^[A-Z0-9._%+-]+@[A-Z0-9.-]+\.[A-Z]{2,}$` with `re.IGNORECASE`, used
  through `EMAIL_RE.match`.  Python's `$` matches at the end of the
  string or just before one trailing newline; the embedding keeps that
  semantics (`pyDollarMatch`).  Character classes are modelled at the
  ASCII level, matching the ASCII semantics of `Char.isAlpha` and
  `Char.isDigit`.
* `load_existing` (lines 128-132) and `persist_to_csv` (lines 134-139):
  the CSV-backed record store.  The backing file is modelled by
  `FileState`: `missing` (no file), `corrupt` (`pd.read_csv` raises, the
  `except` returns an empty DataFrame), or `content rows` (the parsed
  rows).  `persist_to_csv`'s guard `"email" in df.columns` is subsumed
  by list membership: when the loaded frame has no rows the membership
  test over the empty list is false, exactly as the skipped guard.
* `post_webhook` (lines 141-146) and `push_google_sheet` (lines
  148-174): the two best-effort sinks.  The ambient configuration
  (importable libraries, `os.getenv` values, and the outcomes of the
  fallible network / auth / spreadsheet steps) is an explicit
  environment record; `try/except: pass` is `pyTry`.
* the submit branch of `landing_page` (lines 290-326): field stripping,
  the five validation rules in order, record construction, persistence
  and the two sink calls.  `about_page` (lines 402-435) repeats the same
  validation block verbatim.

Python's `str.lower` and `str.strip` are embedded character-wise
(`pyLower`, `pyStrip`); on the ASCII data handled here they agree with
the Python built-ins.
-/

/-- Python `str.lower()` (character-wise; ASCII-faithful). -/
def pyLower (s : String) : String := ⟨s.data.map Char.toLower⟩

/-- Python `str.strip()`: drop leading and trailing whitespace. -/
def pyStrip (s : String) : String :=
  ⟨((s.data.dropWhile Char.isWhitespace).reverse.dropWhile Char.isWhitespace).reverse⟩

/-- The class `[A-Z0-9._%+-]` under `re.IGNORECASE`. -/
def isLocalChar (c : Char) : Bool :=
  c.isAlpha || c.isDigit || c = '.' || c = '_' || c = '%' || c = '+' || c = '-'

/-- The class `[A-Z0-9.-]` under `re.IGNORECASE`. -/
def isDomainChar (c : Char) : Bool :=
  c.isAlpha || c.isDigit || c = '.' || c = '-'

/-- Matcher for the part after the `@`: `[A-Z0-9.-]+\.[A-Z]{2,}` taken to the
end of the input.  A valid split must put every character after its dot in
`[A-Z]`, so the dot of the split is the one just before the maximal
alphabetic suffix; the matcher reads that suffix off the reversed list. -/
def domainMatch (cs : List Char) : Bool :=
  match cs.reverse.dropWhile Char.isAlpha with
  | '.' :: drest =>
      decide (2 ≤ (cs.reverse.takeWhile Char.isAlpha).length) &&
      !drest.isEmpty && drest.all isDomainChar
  | _ => false

/-- `EMAIL_RE` anchored at both ends, without the trailing-newline allowance:
`^[A-Z0-9._%+-]+@[A-Z0-9.-]+\.[A-Z]{2,}` ending exactly at the end of input.
The local part contains no `@`, so the `@` consumed is the first one. -/
def reFullMatch (cs : List Char) : Bool :=
  !(cs.takeWhile (fun c => !(c == '@'))).isEmpty &&
  decide ((cs.takeWhile (fun c => !(c == '@'))).length < cs.length) &&
  (cs.takeWhile (fun c => !(c == '@'))).all isLocalChar &&
  domainMatch (cs.drop ((cs.takeWhile (fun c => !(c == '@'))).length + 1))

/-- `EMAIL_RE.match`: Python's `$` also matches just before one newline at
the very end of the string. -/
def pyDollarMatch (cs : List Char) : Bool :=
  reFullMatch cs ||
    (match cs.getLast? with
     | some c => (c == '\n') && reFullMatch cs.dropLast
     | none => false)

/-- app.py line 126: `valid_email(email) = bool(email and EMAIL_RE.match(email))`. -/
def valid_email (email : String) : Bool :=
  (email != "") && pyDollarMatch email.data

/-- The language of the spec's pattern `^[A-Za-z0-9._%+-]+@[A-Za-z0-9.-]+\.[A-Za-z]{2,}$`
read as a full anchored match, on character lists. -/
def EmailLang (cs : List Char) : Prop :=
  ∃ l d t : List Char,
    cs = l ++ '@' :: (d ++ '.' :: t) ∧
    l ≠ [] ∧ (∀ c ∈ l, isLocalChar c = true) ∧
    d ≠ [] ∧ (∀ c ∈ d, isDomainChar c = true) ∧
    2 ≤ t.length ∧ (∀ c ∈ t, c.isAlpha = true)

/-- Modelled from the spec: the email format requirement, "must match
`^[A-Za-z0-9._%+-]+@[A-Za-z0-9.-]+\.[A-Za-z]{2,}$` (case-insensitive)",
read as a full anchored match of the whole string. -/
def EmailSpecMatch (s : String) : Prop := EmailLang s.data

/-- One Lead Record as built by the submit handlers (the dict literal at
app.py lines 312-318 / 421-427). -/
structure Record where
  full_name : String
  email : String
  phone : String
  business_type : String
  borough : String
  alcohol : String
  outdoor_seating : String
  launch_timeframe : String
  role : String
  notes : String
  source_page : String
deriving DecidableEq

/-- One persisted CSV row: the submitted record plus the `created_utc`
column added by `persist_to_csv` (line 138). -/
structure StoredRow where
  record : Record
  created_utc : String
deriving DecidableEq

/-- The backing file `data/waitlist.csv` as seen through pandas:
absent, present but unparseable, or parsed into rows. -/
inductive FileState
  | missing
  | corrupt
  | content (rows : List StoredRow)
deriving DecidableEq

/-- app.py lines 128-132: `load_existing` returns the parsed DataFrame,
and the empty DataFrame when the file is absent or `pd.read_csv` raises. -/
def load_existing : FileState → List StoredRow
  | FileState.content rows => rows
  | FileState.missing => []
  | FileState.corrupt => []

/-- app.py lines 134-139: `persist_to_csv`.  The probe key is
`record.get("email","").strip().lower()`; it is compared against
`df["email"].astype(str).str.lower().tolist()` (lowercased but NOT
stripped stored values).  On a hit it returns `False` without writing;
otherwise it appends `{**record, "created_utc": now}` and overwrites the
whole file with `out.to_csv`.  The appended record is stored verbatim. -/
def persist_to_csv (fs : FileState) (record : Record) (nowIso : String) :
    Bool × FileState :=
  let df := load_existing fs
  let email := pyLower (pyStrip record.email)
  if email ∈ df.map (fun r => pyLower r.record.email) then (false, fs)
  else (true, FileState.content (df ++ [⟨record, nowIso⟩]))

/-- What a fallible Python I/O step can raise. -/
inductive SinkError
  | network
  | timeout
  | http
  | auth
  | parse
deriving DecidableEq

instance {ε α : Type} [DecidableEq ε] [DecidableEq α] : DecidableEq (Except ε α) := fun x y =>
  match x, y with
  | Except.ok a, Except.ok b =>
      if h : a = b then isTrue (by rw [h])
      else isFalse (by intro he; cases he; exact h rfl)
  | Except.error a, Except.error b =>
      if h : a = b then isTrue (by rw [h])
      else isFalse (by intro he; cases he; exact h rfl)
  | Except.ok _, Except.error _ => isFalse (by intro he; cases he)
  | Except.error _, Except.ok _ => isFalse (by intro he; cases he)

/-- `try: body except Exception: pass` around a `Unit`-valued body. -/
def pyTry : Except SinkError Unit → Except SinkError Unit
  | Except.ok u => Except.ok u
  | Except.error _ => Except.ok ()

/-- Ambient state read by `post_webhook`: whether `import requests`
succeeded, the two environment variables (with their `os.getenv`
defaults already applied), and the outcome of the one `requests.post`
call. -/
structure WebhookEnv where
  requestsAvailable : Bool
  useWebhook : String
  webhookUrl : String
  postResult : Except SinkError Unit
deriving DecidableEq

/-- app.py lines 141-146: `post_webhook`.  Returns early unless
`requests` imported and `USE_WEBHOOK` lowercases to `"true"` and the
stripped `WEBHOOK_URL` is non-empty; the POST itself sits in a
`try/except: pass`. -/
def post_webhook (env : WebhookEnv) (record : Record) : Except SinkError Unit :=
  if !env.requestsAvailable || pyLower env.useWebhook != "true" then Except.ok ()
  else
    let url := pyStrip env.webhookUrl
    if url = "" then Except.ok ()
    else pyTry env.postResult

/-- Outcome of `sh.worksheet("Waitlist")`: found, the dedicated
`gspread.WorksheetNotFound` (caught at line 162), or any other error
(propagates to the outer `except`). -/
inductive WsLookup
  | found
  | notFound
  | err (e : SinkError)
deriving DecidableEq

/-- Ambient state read by `push_google_sheet`: import success, the
`os.getenv` values (`""` standing for an unset/falsy variable), file
existence for the credentials path, and the outcome of each fallible
step inside the `try`. -/
structure SheetEnv where
  gspreadAvailable : Bool
  useGoogleSheets : String
  credsJson : String
  credsPath : String
  credsPathExists : Bool
  loadCredsJson : Except SinkError Unit
  loadCredsFile : Except SinkError Unit
  authorize : Except SinkError Unit
  openByKey : Except SinkError Unit
  worksheetLookup : WsLookup
  addWorksheet : Except SinkError Unit
  appendHeader : Except SinkError Unit
  appendRow : Except SinkError Unit
deriving DecidableEq

/-- app.py lines 151-173: the body of `push_google_sheet`'s `try`.
The `else: return` at line 158 exits the function without error;
a `WorksheetNotFound` creates the sheet and header first; every other
failure propagates (to be swallowed by the caller's `except`). -/
def push_google_sheet_body (env : SheetEnv) : Except SinkError Unit := do
  if env.credsJson ≠ "" then
    let _ ← env.loadCredsJson
  else if env.credsPath ≠ "" ∧ env.credsPathExists then
    let _ ← env.loadCredsFile
  else
    return ()
  let _ ← env.authorize
  let _ ← env.openByKey
  match env.worksheetLookup with
  | WsLookup.found => env.appendRow
  | WsLookup.notFound => do
      let _ ← env.addWorksheet
      let _ ← env.appendHeader
      env.appendRow
  | WsLookup.err e => Except.error e

/-- app.py lines 148-174: `push_google_sheet`.  Returns early unless the
libraries imported and `USE_GOOGLE_SHEETS` lowercases to `"true"`; the
whole body sits in a `try/except: pass`. -/
def push_google_sheet (env : SheetEnv) (record : Record) : Except SinkError Unit :=
  if !env.gspreadAvailable then Except.ok ()
  else if pyLower env.useGoogleSheets != "true" then Except.ok ()
  else pyTry (push_google_sheet_body env)

/-- app.py lines 303-308: the five validation rules of the landing-page
submit handler, in source order.  `name` and `email` arrive already
stripped (lines 292-293); `hp` is the raw honeypot value (line 299, not
stripped); `elapsed` is `time.time() - st.session_state.visit_ts`.
The identical block appears at lines 412-417 of `about_page`. -/
def landing_errs (name email : String) (ok : Bool) (hp : String) (elapsed : ℚ) :
    List String :=
  (if name = "" then ["Full name is required."] else []) ++
  (if !valid_email email then ["Please enter a valid email."] else []) ++
  (if !ok then ["Please agree to be contacted about early access."] else []) ++
  (if hp ≠ "" then ["Submission flagged. Please try again."] else []) ++
  (if elapsed < 3 then ["Form submitted too quickly. Please try again."] else [])

/-- Raw form values of the landing-page form (lines 292-301), before the
`.strip()` applied to name and email at binding time. -/
structure FormInput where
  name : String
  email : String
  business : String
  borough : String
  alcohol : String
  timeframe : String
  notes : String
  hp : String
  ok : Bool
deriving DecidableEq

/-- The record dict built on validation success (app.py lines 312-318):
email lowercased, alcohol lowercased, fixed role and source page. -/
def landing_record (input : FormInput) : Record :=
  { full_name := pyStrip input.name
    email := pyLower (pyStrip input.email)
    phone := ""
    business_type := input.business
    borough := input.borough
    alcohol := pyLower input.alcohol
    outdoor_seating := ""
    launch_timeframe := input.timeframe
    role := "Owner/Operator"
    notes := input.notes
    source_page := "landing" }

/-- The user-visible outcome message (lines 322-326): `st.success` for a
new signup, `st.info` for an already-registered email. -/
inductive UserMessage
  | successNew
  | infoDuplicate
deriving DecidableEq

/-- Everything observable about one run of the submit branch: the
surfaced errors, the resulting backing file, whether the store was
called and its verdict, the message shown, and the two sink invocations
(argument and outcome; `none` when the sink was never invoked). -/
structure SubmitResult where
  errs : List String
  fs : FileState
  persistCalled : Bool
  isNew : Option Bool
  message : Option UserMessage
  webhookCall : Option (Record × Except SinkError Unit)
  sheetCall : Option (Record × Except SinkError Unit)
deriving DecidableEq

/-- app.py lines 302-326: the submit branch of `landing_page`.  On any
validation error the handler only surfaces the messages; otherwise it
builds the record, calls `persist_to_csv`, then fires both sinks
unconditionally and reports new/duplicate.  (The Python handler would
propagate a sink exception, but `post_webhook` and `push_google_sheet`
provably never raise — see the claim-C8 theorem — so binding their
results into the record of observations is faithful.) -/
def landing_submit (fs : FileState) (input : FormInput) (elapsed : ℚ)
    (nowIso : String) (wenv : WebhookEnv) (senv : SheetEnv) : SubmitResult :=
  let name := pyStrip input.name
  let email := pyStrip input.email
  let errs := landing_errs name email input.ok input.hp elapsed
  if errs ≠ [] then
    { errs := errs, fs := fs, persistCalled := false, isNew := none,
      message := none, webhookCall := none, sheetCall := none }
  else
    let record := landing_record input
    let res := persist_to_csv fs record nowIso
    { errs := []
      fs := res.2
      persistCalled := true
      isNew := some res.1
      message := some (if res.1 then UserMessage.successNew else UserMessage.infoDuplicate)
      webhookCall := some (record, post_webhook wenv record)
      sheetCall := some (record, push_google_sheet senv record) }

/-- A sequence of `persist_to_csv` calls (record and timestamp each)
starting from the empty store (no backing file yet). -/
def runIntakeList (calls : List (Record × String)) : FileState :=
  calls.foldl (fun fs c => (persist_to_csv fs c.1 c.2).2) FileState.missing

/-- The spec's store invariant: at most one stored record per distinct
lowercase email, i.e. the lowercased stored emails are pairwise
distinct. -/
def DedupInv (fs : FileState) : Prop :=
  ((load_existing fs).map (fun r => pyLower r.record.email)).Nodup

/-- A disabled sink configuration (no libraries importable, flags unset),
used to instantiate witnesses. -/
def wenv0 : WebhookEnv :=
  { requestsAvailable := false, useWebhook := "false", webhookUrl := "",
    postResult := Except.ok () }

/-- A disabled spreadsheet configuration, used to instantiate witnesses. -/
def senv0 : SheetEnv :=
  { gspreadAvailable := false, useGoogleSheets := "false", credsJson := "",
    credsPath := "", credsPathExists := false, loadCredsJson := Except.ok (),
    loadCredsFile := Except.ok (), authorize := Except.ok (),
    openByKey := Except.ok (), worksheetLookup := WsLookup.found,
    addWorksheet := Except.ok (), appendHeader := Except.ok (),
    appendRow := Except.ok () }

/-- The spec's concrete scenario input: Jane Doe with a mixed-case email. -/
def janeInput : FormInput :=
  { name := "Jane Doe", email := "JANE@Example.com", business := "Restaurant",
    borough := "Manhattan", alcohol := "Yes", timeframe := "Now", notes := "",
    hp := "", ok := true }

/-- First submission of the Jane scenario: empty store, 10 s on page. -/
def janeFirst : SubmitResult :=
  landing_submit FileState.missing janeInput 10 "t1" wenv0 senv0

/-- Second submission of the identical input against the store produced by
the first one. -/
def janeSecond : SubmitResult :=
  landing_submit janeFirst.fs janeInput 100 "t2" wenv0 senv0

/-- A record whose email is upper-case, passed directly to the store. -/
def upperRec : Record :=
  { full_name := "Ann Example", email := "A@B.CO", phone := "",
    business_type := "Restaurant", borough := "Manhattan", alcohol := "yes",
    outdoor_seating := "", launch_timeframe := "Now", role := "Owner/Operator",
    notes := "", source_page := "landing" }

/-- A record whose email carries a leading space, passed directly to the
store. -/
def paddedRec : Record :=
  { full_name := "Bob Example", email := " a@b.co", phone := "",
    business_type := "Bar", borough := "Queens", alcohol := "no",
    outdoor_seating := "", launch_timeframe := "Now", role := "Owner/Operator",
    notes := "", source_page := "landing" }

theorem takeWhile_append_all {α : Type} (p : α → Bool) {l₁ : List α} (l₂ : List α)
    (h : ∀ a ∈ l₁, p a = true) : (l₁ ++ l₂).takeWhile p = l₁ ++ l₂.takeWhile p := by
  induction l₁ with
  | nil => simp
  | cons a l ih =>
      have ha : p a = true := h a (List.mem_cons_self _ _)
      simp [List.takeWhile_cons_of_pos ha, ih fun b hb => h b (List.mem_cons_of_mem _ hb)]

theorem dropWhile_append_all {α : Type} (p : α → Bool) {l₁ : List α} (l₂ : List α)
    (h : ∀ a ∈ l₁, p a = true) : (l₁ ++ l₂).dropWhile p = l₂.dropWhile p := by
  induction l₁ with
  | nil => simp
  | cons a l ih =>
      have ha : p a = true := h a (List.mem_cons_self _ _)
      simp [List.dropWhile_cons_of_pos ha, ih fun b hb => h b (List.mem_cons_of_mem _ hb)]

theorem dropWhile_head_false {α : Type} (p : α → Bool) :
    ∀ (cs : List α) {c : α} {rest : List α}, cs.dropWhile p = c :: rest → p c = false := by
  intro cs
  induction cs with
  | nil => intro c rest h; cases h
  | cons a l ih =>
      intro c rest h
      by_cases hp : p a = true
      · rw [List.dropWhile_cons_of_pos hp] at h
        exact ih h
      · rw [List.dropWhile_cons_of_neg (by simpa using hp)] at h
        cases h
        simpa using hp

theorem domainMatch_iff (cs : List Char) :
    domainMatch cs = true ↔
      ∃ d t : List Char, cs = d ++ '.' :: t ∧ d ≠ [] ∧
        (∀ c ∈ d, isDomainChar c = true) ∧ 2 ≤ t.length ∧ (∀ c ∈ t, c.isAlpha = true) := by
  constructor
  · intro h
    unfold domainMatch at h
    split at h
    case _ drest heq =>
      simp only [Bool.and_eq_true, decide_eq_true_eq, Bool.not_eq_true',
        List.isEmpty_eq_false, List.all_eq_true] at h
      obtain ⟨⟨hlen, hne⟩, hall⟩ := h
      have h0 : cs.reverse.takeWhile Char.isAlpha ++ cs.reverse.dropWhile Char.isAlpha
          = cs.reverse := List.takeWhile_append_dropWhile Char.isAlpha cs.reverse
      rw [heq] at h0
      have h1 : cs = drest.reverse ++ '.' :: (cs.reverse.takeWhile Char.isAlpha).reverse := by
        have h2 := congrArg List.reverse h0
        simpa using h2.symm
      refine ⟨drest.reverse, (cs.reverse.takeWhile Char.isAlpha).reverse, h1, ?_, ?_, ?_, ?_⟩
      · simpa using hne
      · intro c hc
        exact hall c (List.mem_reverse.mp hc)
      · simpa using hlen
      · intro c hc
        exact List.mem_takeWhile_imp (List.mem_reverse.mp hc)
    case _ =>
      cases h
  · rintro ⟨d, t, rfl, hd, hdall, htlen, htall⟩
    have hrev : (d ++ '.' :: t).reverse = t.reverse ++ '.' :: d.reverse := by
      simp
    have htall' : ∀ a ∈ t.reverse, Char.isAlpha a = true := by
      intro a ha
      exact htall a (List.mem_reverse.mp ha)
    have hdw : (d ++ '.' :: t).reverse.dropWhile Char.isAlpha = '.' :: d.reverse := by
      rw [hrev, dropWhile_append_all _ _ htall', List.dropWhile_cons_of_neg (by decide)]
    have htw : (d ++ '.' :: t).reverse.takeWhile Char.isAlpha = t.reverse := by
      rw [hrev, takeWhile_append_all _ _ htall', List.takeWhile_cons_of_neg (by decide)]
      simp
    unfold domainMatch
    rw [hdw]
    simp only [htw, Bool.and_eq_true, decide_eq_true_eq, Bool.not_eq_true',
      List.isEmpty_eq_false, List.all_eq_true]
    refine ⟨⟨by simpa using htlen, by simpa using hd⟩, ?_⟩
    intro c hc
    exact hdall c (List.mem_reverse.mp hc)

theorem isLocalChar_ne_at {c : Char} (h : isLocalChar c = true) : (c == '@') = false := by
  by_cases hc : c = '@'
  · rw [hc] at h
    exact absurd h (by decide)
  · simpa using hc

theorem reFullMatch_iff (cs : List Char) : reFullMatch cs = true ↔ EmailLang cs := by
  constructor
  · intro h
    unfold reFullMatch at h
    simp only [Bool.and_eq_true, decide_eq_true_eq, Bool.not_eq_true',
      List.isEmpty_eq_false, List.all_eq_true] at h
    obtain ⟨⟨⟨hne, hlen⟩, hall⟩, hdom⟩ := h
    have hsplit : cs.takeWhile (fun c => !(c == '@')) ++ cs.dropWhile (fun c => !(c == '@'))
        = cs := List.takeWhile_append_dropWhile _ cs
    rcases hdw : cs.dropWhile (fun c => !(c == '@')) with _ | ⟨c, rest⟩
    · rw [hdw, List.append_nil] at hsplit
      rw [hsplit] at hlen
      exact absurd hlen (lt_irrefl _)
    · have hc : c = '@' := by
        have := dropWhile_head_false _ cs hdw
        simpa using this
      subst hc
      rw [hdw] at hsplit
      set L := cs.takeWhile (fun c => !(c == '@')) with hL
      have hdrop : cs.drop (L.length + 1) = rest := by
        rw [← hsplit]
        have hassoc : L ++ '@' :: rest = (L ++ ['@']) ++ rest := by
          simp
        rw [hassoc]
        exact List.drop_left' (by simp)
      rw [hdrop] at hdom
      obtain ⟨d, t, rfl, hd, hdall, htlen, htall⟩ := (domainMatch_iff rest).mp hdom
      exact ⟨L, d, t, hsplit.symm, hne, hall, hd, hdall, htlen, htall⟩
  · rintro ⟨l, d, t, rfl, hlne, hlall, hdne, hdall, htlen, htall⟩
    have hpl : ∀ a ∈ l, (fun c => !(c == '@')) a = true := by
      intro a ha
      simpa using isLocalChar_ne_at (hlall a ha)
    have htake : ((l ++ '@' :: (d ++ '.' :: t)).takeWhile (fun c => !(c == '@'))) = l := by
      rw [takeWhile_append_all _ _ hpl, List.takeWhile_cons_of_neg (by decide)]
      simp
    have hdrop : (l ++ '@' :: (d ++ '.' :: t)).drop (l.length + 1) = d ++ '.' :: t := by
      have : l ++ '@' :: (d ++ '.' :: t) = (l ++ ['@']) ++ (d ++ '.' :: t) := by
        simp
      rw [this]
      exact List.drop_left' (by simp)
    unfold reFullMatch
    rw [htake, hdrop]
    simp only [Bool.and_eq_true, decide_eq_true_eq, Bool.not_eq_true',
      List.isEmpty_eq_false, List.all_eq_true]
    refine ⟨⟨⟨hlne, ?_⟩, hlall⟩, (domainMatch_iff _).mpr ⟨d, t, rfl, hdne, hdall, htlen, htall⟩⟩
    simp [List.length_append]

theorem emailLang_ne_nil {cs : List Char} (h : EmailLang cs) : cs ≠ [] := by
  obtain ⟨l, d, t, rfl, -⟩ := h
  simp

theorem emailLang_no_newline {cs : List Char} (h : EmailLang cs) : '\n' ∉ cs := by
  obtain ⟨l, d, t, rfl, hlne, hlall, hdne, hdall, htlen, htall⟩ := h
  intro hmem
  simp only [List.mem_append, List.mem_cons] at hmem
  rcases hmem with hl | heq | hd | heq | ht
  · exact absurd (hlall _ hl) (by decide)
  · exact absurd heq (by decide)
  · exact absurd (hdall _ hd) (by decide)
  · exact absurd heq (by decide)
  · exact absurd (htall _ ht) (by decide)

theorem newlineBranch_iff (cs : List Char) :
    (match cs.getLast? with
     | some c => (c == '\n') && reFullMatch cs.dropLast
     | none => false) = true ↔
    ∃ pre : List Char, cs = pre ++ ['\n'] ∧ EmailLang pre := by
  constructor
  · intro h
    split at h
    case _ c heq =>
      simp only [Bool.and_eq_true, beq_iff_eq] at h
      obtain ⟨rfl, hm⟩ := h
      refine ⟨cs.dropLast, ?_, (reFullMatch_iff _).mp hm⟩
      exact (List.dropLast_append_getLast? _ heq).symm
    case _ =>
      cases h
  · rintro ⟨pre, rfl, hl⟩
    have hlast : (pre ++ ['\n']).getLast? = some '\n' := by
      simp [List.getLast?_concat]
    rw [hlast]
    simp only [List.dropLast_concat, Bool.and_eq_true, beq_self_eq_true, true_and]
    exact (reFullMatch_iff pre).mpr hl

theorem pyDollarMatch_iff (cs : List Char) :
    pyDollarMatch cs = true ↔
      EmailLang cs ∨ ∃ pre : List Char, cs = pre ++ ['\n'] ∧ EmailLang pre := by
  unfold pyDollarMatch
  rw [Bool.or_eq_true, reFullMatch_iff, newlineBranch_iff]

theorem valid_email_iff (s : String) :
    valid_email s = true ↔
      EmailLang s.data ∨ ∃ pre : List Char, s.data = pre ++ ['\n'] ∧ EmailLang pre := by
  unfold valid_email
  rw [Bool.and_eq_true, pyDollarMatch_iff]
  constructor
  · rintro ⟨-, h⟩
    exact h
  · intro h
    refine ⟨?_, h⟩
    have hne : s.data ≠ [] := by
      rcases h with h | ⟨pre, hpre, -⟩
      · exact emailLang_ne_nil h
      · rw [hpre]
        simp
    rw [bne_iff_ne]
    intro he
    rw [he] at hne
    exact hne rfl

/-- Claim C5 (counterexample): `valid_email` accepts `"a@b.co\n"`, a string
that does not match the spec pattern `^[A-Za-z0-9._%+-]+@[A-Za-z0-9.-]+\.[A-Za-z]{2,}$`
as a full anchored match, because Python's `$` also matches just before a
trailing newline. -/
theorem C5_counterexample :
    valid_email "a@b.co\n" = true ∧ ¬ EmailSpecMatch "a@b.co\n" := by
  constructor
  · decide
  · intro h
    exact emailLang_no_newline h (by decide)

/-- Claim C5 (amended): for every string input, `valid_email` accepts the
input if and only if it matches the spec pattern as a full anchored match,
or it is such a match followed by a single trailing newline (Python `re`
`$` semantics); in particular the empty string, strings without `@`, and
strings with a top-level domain shorter than 2 letters are rejected. -/
theorem C5_valid_email_amended (s : String) :
    valid_email s = true ↔
      EmailSpecMatch s ∨ ∃ pre : List Char, s.data = pre ++ ['\n'] ∧ EmailLang pre :=
  valid_email_iff s

theorem pyTry_ok (x : Except SinkError Unit) : pyTry x = Except.ok () := by
  cases x with
  | ok u => cases u; rfl
  | error e => rfl

/-- Claim C1 (counterexample): `persist_to_csv` stores the record's email
verbatim.  Appending a record with email `"A@B.CO"` to the empty store
succeeds, and the stored email value is `"A@B.CO"`, not its lowercase
canonicalization `"a@b.co"`. -/
theorem C1_counterexample :
    (persist_to_csv (FileState.content []) upperRec "t0").1 = true ∧
    (load_existing (persist_to_csv (FileState.content []) upperRec "t0").2).map
        (fun r => r.record.email) = ["A@B.CO"] ∧
    "A@B.CO" ≠ pyLower "A@B.CO" := by
  decide

/-- Claim C1 (amended): `persist_to_csv` canonicalizes the record's email
(strip + lowercase) for the duplicate check against the lowercased stored
emails; on a hit it returns `False` ("duplicate") and performs no write;
otherwise it assigns `created_utc`, appends the record, persists the full
updated set and returns `True` ("new").  The appended record keeps its
email value verbatim — the lowercasing of the stored value is done by the
intake handler before the call, not by the store. -/
theorem C1_persist_amended (fs : FileState) (record : Record) (nowIso : String) :
    (pyLower (pyStrip record.email) ∈
        (load_existing fs).map (fun r => pyLower r.record.email) →
      persist_to_csv fs record nowIso = (false, fs)) ∧
    (pyLower (pyStrip record.email) ∉
        (load_existing fs).map (fun r => pyLower r.record.email) →
      persist_to_csv fs record nowIso =
        (true, FileState.content (load_existing fs ++ [⟨record, nowIso⟩])) ∧
      (load_existing (persist_to_csv fs record nowIso).2).map
          (fun r => r.record.email) =
        (load_existing fs).map (fun r => r.record.email) ++ [record.email]) := by
  constructor
  · intro h
    simp [persist_to_csv, h]
  · intro h
    have heq : persist_to_csv fs record nowIso =
        (true, FileState.content (load_existing fs ++ [⟨record, nowIso⟩])) := by
      simp [persist_to_csv, h]
    refine ⟨heq, ?_⟩
    rw [heq]
    simp [load_existing]

theorem C1_witness :
    persist_to_csv (FileState.content [⟨upperRec, "t0"⟩]) upperRec "t1"
        = (false, FileState.content [⟨upperRec, "t0"⟩]) ∧
    persist_to_csv FileState.missing upperRec "t1"
        = (true, FileState.content [⟨upperRec, "t1"⟩]) := by
  refine ⟨(C1_persist_amended (FileState.content [⟨upperRec, "t0"⟩]) upperRec "t1").1
      (by decide), ?_⟩
  have h := ((C1_persist_amended FileState.missing upperRec "t1").2 (by decide)).1
  simpa using h

/-- Claim C2 (counterexample): the probe key is stripped before the
membership test but the stored emails are not, so two calls carrying the
email `" a@b.co"` (leading space) both append, and the resulting reachable
store holds two records with the same lowercase email. -/
theorem C2_counterexample :
    ¬ DedupInv (runIntakeList [(paddedRec, "t1"), (paddedRec, "t2")]) := by
  unfold DedupInv
  decide

theorem persist_preserves_dedup (fs : FileState) (record : Record) (nowIso : String)
    (hstrip : pyStrip record.email = record.email) (hinv : DedupInv fs) :
    DedupInv (persist_to_csv fs record nowIso).2 := by
  unfold DedupInv persist_to_csv
  rw [hstrip]
  by_cases hmem : pyLower record.email ∈
      (load_existing fs).map (fun r => pyLower r.record.email)
  · simpa [hmem] using hinv
  · simp only [hmem, if_false]
    simp only [load_existing, List.map_append, List.map_cons, List.map_nil]
    rw [List.nodup_append]
    refine ⟨hinv, List.nodup_singleton _, ?_⟩
    intro x hx hx1
    simp only [List.mem_singleton] at hx1
    subst hx1
    exact hmem hx

theorem foldl_preserves_dedup (calls : List (Record × String)) :
    ∀ fs : FileState, (∀ p ∈ calls, pyStrip p.1.email = p.1.email) → DedupInv fs →
      DedupInv (calls.foldl (fun fs c => (persist_to_csv fs c.1 c.2).2) fs) := by
  induction calls with
  | nil => intro fs _ hinv; exact hinv
  | cons c rest ih =>
      intro fs h hinv
      exact ih _ (fun p hp => h p (List.mem_cons_of_mem _ hp))
        (persist_preserves_dedup fs c.1 c.2 (h c (List.mem_cons_self _ _)) hinv)

/-- Claim C2 (amended): every store state reachable by a sequence of
`persist_to_csv` calls starting from the empty store — provided each
submitted record's email carries no leading or trailing whitespace, as is
the case for every record built by the intake handler, which strips the
field — contains at most one record per distinct lowercase email. -/
theorem C2_dedup_amended (calls : List (Record × String))
    (h : ∀ p ∈ calls, pyStrip p.1.email = p.1.email) :
    DedupInv (runIntakeList calls) :=
  foldl_preserves_dedup calls FileState.missing h
    (by simp [DedupInv, load_existing])

theorem C2_witness :
    (∀ p ∈ ([(upperRec, "t1"), (upperRec, "t2")] : List (Record × String)),
      pyStrip p.1.email = p.1.email) ∧
    DedupInv (runIntakeList [(upperRec, "t1"), (upperRec, "t2")]) :=
  ⟨by decide, C2_dedup_amended [(upperRec, "t1"), (upperRec, "t2")] (by decide)⟩

/-- Claim C9: `load_existing` returns the full set of parsed rows when the
backing file exists and parses, and the empty set — without raising — when
the file is missing or unreadable/corrupt (the `except` swallows the parse
failure). -/
theorem C9_load_existing :
    (∀ rows : List StoredRow, load_existing (FileState.content rows) = rows) ∧
    load_existing FileState.missing = [] ∧
    load_existing FileState.corrupt = [] :=
  ⟨fun _ => rfl, rfl, rfl⟩

/-- Claim C10: when the backing file is unreadable/corrupt, `load_existing`
yields the empty set, so a subsequent valid submission is reported "new"
whatever its email, and the full-file overwrite leaves the store holding
exactly the one new record — everything previously stored is discarded. -/
theorem C10_corrupt_overwrite (input : FormInput) (elapsed : ℚ) (nowIso : String)
    (wenv : WebhookEnv) (senv : SheetEnv)
    (h : landing_errs (pyStrip input.name) (pyStrip input.email) input.ok input.hp
          elapsed = []) :
    load_existing FileState.corrupt = [] ∧
    (landing_submit FileState.corrupt input elapsed nowIso wenv senv).isNew
        = some true ∧
    (landing_submit FileState.corrupt input elapsed nowIso wenv senv).fs
        = FileState.content [⟨landing_record input, nowIso⟩] := by
  refine ⟨rfl, ?_⟩
  simp [landing_submit, h, persist_to_csv, load_existing]

theorem C10_witness :
    load_existing FileState.corrupt = [] ∧
    (landing_submit FileState.corrupt janeInput 10 "t1" wenv0 senv0).isNew
        = some true ∧
    (landing_submit FileState.corrupt janeInput 10 "t1" wenv0 senv0).fs
        = FileState.content [⟨landing_record janeInput, "t1"⟩] :=
  C10_corrupt_overwrite janeInput 10 "t1" wenv0 senv0 (by decide)

/-- Claim C4: on any validation violation the handler surfaces exactly the
violation messages and nothing else happens: the record store is not
called, neither notification sink is invoked, and the backing store is
unchanged. -/
theorem C4_rejected_no_effects (fs : FileState) (input : FormInput) (elapsed : ℚ)
    (nowIso : String) (wenv : WebhookEnv) (senv : SheetEnv)
    (h : landing_errs (pyStrip input.name) (pyStrip input.email) input.ok input.hp
          elapsed ≠ []) :
    landing_submit fs input elapsed nowIso wenv senv =
      { errs := landing_errs (pyStrip input.name) (pyStrip input.email) input.ok
          input.hp elapsed,
        fs := fs, persistCalled := false, isNew := none, message := none,
        webhookCall := none, sheetCall := none } := by
  simp [landing_submit, h]

theorem C4_witness :
    landing_errs (pyStrip "") (pyStrip "jane@example.com") true "" 10 ≠ [] ∧
    landing_submit (FileState.content [⟨upperRec, "t0"⟩])
        { name := "", email := "jane@example.com", business := "Restaurant",
          borough := "Manhattan", alcohol := "Yes", timeframe := "Now",
          notes := "", hp := "", ok := true } 10 "t1" wenv0 senv0 =
      { errs := ["Full name is required."],
        fs := FileState.content [⟨upperRec, "t0"⟩], persistCalled := false,
        isNew := none, message := none, webhookCall := none, sheetCall := none } := by
  refine ⟨by decide, ?_⟩
  have h := C4_rejected_no_effects (FileState.content [⟨upperRec, "t0"⟩])
    { name := "", email := "jane@example.com", business := "Restaurant",
      borough := "Manhattan", alcohol := "Yes", timeframe := "Now",
      notes := "", hp := "", ok := true } 10 "t1" wenv0 senv0 (by decide)
  rw [h]
  decide

/-- Claim C7: every submission that passes validation invokes both
notification sinks with the submitted record, whatever the store verdict —
the webhook and spreadsheet calls happen with the built record even when
`persist_to_csv` reports a duplicate. -/
theorem C7_sinks_always_fired (fs : FileState) (input : FormInput) (elapsed : ℚ)
    (nowIso : String) (wenv : WebhookEnv) (senv : SheetEnv)
    (h : landing_errs (pyStrip input.name) (pyStrip input.email) input.ok input.hp
          elapsed = []) :
    (landing_submit fs input elapsed nowIso wenv senv).webhookCall =
      some (landing_record input, post_webhook wenv (landing_record input)) ∧
    (landing_submit fs input elapsed nowIso wenv senv).sheetCall =
      some (landing_record input, push_google_sheet senv (landing_record input)) ∧
    (landing_submit fs input elapsed nowIso wenv senv).isNew =
      some (persist_to_csv fs (landing_record input) nowIso).1 := by
  simp [landing_submit, h]

theorem C7_witness :
    (landing_submit janeFirst.fs janeInput 100 "t2" wenv0 senv0).webhookCall =
      some (landing_record janeInput, post_webhook wenv0 (landing_record janeInput)) ∧
    (landing_submit janeFirst.fs janeInput 100 "t2" wenv0 senv0).sheetCall =
      some (landing_record janeInput, push_google_sheet senv0 (landing_record janeInput)) ∧
    (landing_submit janeFirst.fs janeInput 100 "t2" wenv0 senv0).isNew = some false := by
  have h := C7_sinks_always_fired janeFirst.fs janeInput 100 "t2" wenv0 senv0 (by decide)
  refine ⟨h.1, h.2.1, ?_⟩
  rw [h.2.2]
  decide

/-- Claim C8: neither sink ever raises to the caller — under every
configuration and every outcome of the underlying network, parse, auth and
spreadsheet steps both functions return normally — and the handler's
"new"/"duplicate" verdict, user-visible message, surfaced errors and
resulting store do not depend on the sink environments at all. -/
theorem C8_sinks_never_raise :
    (∀ (wenv : WebhookEnv) (record : Record),
      post_webhook wenv record = Except.ok ()) ∧
    (∀ (senv : SheetEnv) (record : Record),
      push_google_sheet senv record = Except.ok ()) ∧
    (∀ (fs : FileState) (input : FormInput) (elapsed : ℚ) (nowIso : String)
        (w1 w2 : WebhookEnv) (s1 s2 : SheetEnv),
      (landing_submit fs input elapsed nowIso w1 s1).errs =
        (landing_submit fs input elapsed nowIso w2 s2).errs ∧
      (landing_submit fs input elapsed nowIso w1 s1).isNew =
        (landing_submit fs input elapsed nowIso w2 s2).isNew ∧
      (landing_submit fs input elapsed nowIso w1 s1).message =
        (landing_submit fs input elapsed nowIso w2 s2).message ∧
      (landing_submit fs input elapsed nowIso w1 s1).fs =
        (landing_submit fs input elapsed nowIso w2 s2).fs) := by
  refine ⟨?_, ?_, ?_⟩
  · intro wenv record
    unfold post_webhook
    split_ifs <;> simp [pyTry_ok]
  · intro senv record
    unfold push_google_sheet
    split_ifs <;> simp [pyTry_ok]
  · intro fs input elapsed nowIso w1 w2 s1 s2
    by_cases h : landing_errs (pyStrip input.name) (pyStrip input.email) input.ok
        input.hp elapsed = []
    · simp [landing_submit, h]
    · simp [landing_submit, h]

/-- Claim C3: submitting an email whose canonical (stripped, lowercased)
form is already among the stored lowercase emails returns "duplicate" and
leaves the stored record set exactly unchanged, whatever the letter case;
and the concrete scenario: `"JANE@Example.com"` is stored as
`"jane@example.com"` with result "new", and resubmitting the identical
input yields "duplicate" with still exactly one stored record for that
email. -/
theorem C3_resubmit_duplicate :
    (∀ (fs : FileState) (input : FormInput) (elapsed : ℚ) (nowIso : String)
        (wenv : WebhookEnv) (senv : SheetEnv),
      pyLower (pyStrip (landing_record input).email) ∈
          (load_existing fs).map (fun r => pyLower r.record.email) →
      landing_errs (pyStrip input.name) (pyStrip input.email) input.ok input.hp
          elapsed = [] →
      (landing_submit fs input elapsed nowIso wenv senv).isNew = some false ∧
      (landing_submit fs input elapsed nowIso wenv senv).fs = fs) ∧
    (janeFirst.isNew = some true ∧
     (load_existing janeFirst.fs).map (fun r => r.record.email)
        = ["jane@example.com"] ∧
     janeSecond.isNew = some false ∧
     janeSecond.fs = janeFirst.fs ∧
     ((load_existing janeSecond.fs).filter
        (fun r => r.record.email = "jane@example.com")).length = 1) := by
  constructor
  · intro fs input elapsed nowIso wenv senv hmem herrs
    simp [landing_submit, herrs, persist_to_csv, hmem]
  · decide

theorem C3_witness :
    (landing_submit janeFirst.fs janeInput 100 "t2" wenv0 senv0).isNew = some false ∧
    (landing_submit janeFirst.fs janeInput 100 "t2" wenv0 senv0).fs = janeFirst.fs :=
  C3_resubmit_duplicate.1 janeFirst.fs janeInput 100 "t2" wenv0 senv0
    (by decide) (by decide)

/-- Claim C6: the validator evaluates its five rules independently and
without short-circuiting — the violation list is exactly the ordered
filter of the five (condition, message) pairs (name, email, consent,
honeypot, timing), each message appears if and only if its own rule is
violated regardless of the other rules, and the submission is accepted
(empty list) if and only if all five rules pass.  The same block appears
verbatim in `about_page`. -/
theorem C6_validator_rules (name email : String) (ok : Bool) (hp : String)
    (elapsed : ℚ) :
    (landing_errs name email ok hp elapsed =
      (([(decide (name = ""), "Full name is required."),
         (!valid_email email, "Please enter a valid email."),
         (!ok, "Please agree to be contacted about early access."),
         (decide (hp ≠ ""), "Submission flagged. Please try again."),
         (decide (elapsed < 3), "Form submitted too quickly. Please try again.")]
        : List (Bool × String)).filter (fun p => p.1)).map (fun p => p.2)) ∧
    ("Full name is required." ∈ landing_errs name email ok hp elapsed ↔
        name = "") ∧
    ("Please enter a valid email." ∈ landing_errs name email ok hp elapsed ↔
        valid_email email = false) ∧
    ("Please agree to be contacted about early access." ∈
        landing_errs name email ok hp elapsed ↔ ok = false) ∧
    ("Submission flagged. Please try again." ∈
        landing_errs name email ok hp elapsed ↔ hp ≠ "") ∧
    ("Form submitted too quickly. Please try again." ∈
        landing_errs name email ok hp elapsed ↔ elapsed < 3) ∧
    (landing_errs name email ok hp elapsed = [] ↔
      (name ≠ "" ∧ valid_email email = true ∧ ok = true ∧ hp = "" ∧
       ¬ elapsed < 3)) := by
  unfold landing_errs
  refine ⟨?_, ?_, ?_, ?_, ?_, ?_, ?_⟩ <;> split_ifs <;> simp_all
